import Mathlib

/-
Verification of the crossbarjs facade (the `crossbarFactory` of version
1.2.0, the implementation the repository's test suite exercises).

The JavaScript source is shallowly embedded: the facade's mutable maps
become association lists threaded explicitly, promises become
`Except JsError`, and the external autobahn session is an oracle
parameter (`AddOracle` / `RemoveOracle`) standing for the session's
`subscribe`/`register` and `unsubscribe`/`unregister` primitives.
Lifecycle-hook invocations performed by the recovery engine are recorded
in an explicit event trace.
-/

namespace Crossbarjs

/-- JavaScript runtime values, as far as the facade inspects them.
Function values are opaque tokens (`fn id`); `adaptedFn orig` is the fresh
function value produced by `deCrossbarify(orig)` (the argument adapter).
The behavioural content of the adapter is modelled separately by
`deCrossbarify` below, on actual Lean functions. -/
inductive JsValue where
  | undefined
  | jsNull
  | bool (b : Bool)
  | num (n : Int)
  | str (s : String)
  | arr (elems : List JsValue)
  | fn (id : Nat)
  | adaptedFn (orig : JsValue)
  | obj (id : Nat)

/-- lodash.isstring: true exactly on string values. -/
def JsValue.isString : JsValue → Bool
  | .str _ => true
  | _ => false

/-- lodash.isfunction: true exactly on function values. -/
def JsValue.isFunction : JsValue → Bool
  | .fn _ => true
  | .adaptedFn _ => true
  | _ => false

/-- Underlying string of a string value (guarded by `isString` at use sites). -/
def JsValue.asString : JsValue → String
  | .str s => s
  | _ => ""

mutual

/-- JS template-literal conversion of a value, as in `${x}`.
(Function values display as their source text in JS; no theorem below
depends on the display of a function value.) -/
def jsDisplay : JsValue → String
  | .undefined => "undefined"
  | .jsNull => "null"
  | .bool b => if b then "true" else "false"
  | .num n => toString n
  | .str s => s
  | .arr l => jsDisplayList l
  | .fn _ => "[Function]"
  | .adaptedFn _ => "[Function]"
  | .obj _ => "[object Object]"

/-- Array-to-string conversion: elements joined by commas. -/
def jsDisplayList : List JsValue → String
  | [] => ""
  | [x] => jsDisplay x
  | x :: y :: xs => jsDisplay x ++ "," ++ jsDisplayList (y :: xs)

end

/-- JS property access `x.name`, used by `unregisterMany`'s error template.
Strings, numbers, booleans and plain arrays have no own `name` property, so
the access yields `undefined`. (On `undefined`/`null` the access would
throw in JS; no claim exercises that path and the theorems below apply
this only to string inputs.) -/
def jsGetPropName : JsValue → JsValue
  | _ => .undefined

/-- Errors created by the facade: `new TypeError(msg)` / `new Error(msg)`. -/
inductive JsError where
  | typeError (message : String)
  | jsError (message : String)
deriving DecidableEq, Repr

/-- `JSON.stringify` of an Error object: its properties are non-enumerable,
so the result is the two-character string of an empty object literal. -/
def jsonStringifyError : JsError → String := fun _ => "\x7b\x7d"

/-- Value stored in `subscritionMap` / `registrationMap` by `add`:
`\x7b cb: callback, opResult: result \x7d`. -/
structure Entry where
  cb : JsValue
  opResult : Nat

/-- A JS `Map` from string keys to entries, in insertion order. -/
abbrev RegMap := List (String × Entry)

/-- JS `Map.prototype.has`. -/
def mapHas (m : RegMap) (key : String) : Bool :=
  m.any (fun p => p.1 == key)

/-- JS `Map.prototype.get` (as an `Option`; JS yields `undefined` when absent). -/
def mapGet : RegMap → String → Option Entry
  | [], _ => none
  | (k, v) :: rest, key => if k = key then some v else mapGet rest key

/-- JS `Map.prototype.set`: update in place when the key exists (keeping
its insertion position), otherwise append. -/
def mapSet : RegMap → String → Entry → RegMap
  | [], key, v => [(key, v)]
  | (k, w) :: rest, key, v =>
      if k = key then (key, v) :: rest else (k, w) :: mapSet rest key v

/-- JS `Map.prototype.delete`. -/
def mapDelete : RegMap → String → RegMap
  | [], _ => []
  | (k, w) :: rest, key => if k = key then rest else (k, w) :: mapDelete rest key

/-- An opaque options bag (one of the five sections of the options object). -/
abbrev OptBag := List (String × JsValue)

/-- JS property read on an options bag: `undefined` when the key is absent. -/
def bagGet (bag : OptBag) (key : String) : JsValue :=
  (List.lookup key bag).getD .undefined

/-- The five-section options object. -/
structure Options where
  connect : OptBag
  publish : OptBag
  subscribe : OptBag
  call : OptBag
  register : OptBag

/-- `DEFAULT_OPTS` of the source (frozen default snapshot). -/
def DEFAULT_OPTS : Options :=
  { connect := [("url", .str "ws://localhost:8080/ws"), ("realm", .str "realm1")]
    publish := []
    subscribe := []
    call := []
    register := [] }

/-- Caller-supplied argument to `setOpts`: an object carrying any subset of
the five top-level option keys (`Object.assign` copies the keys present). -/
structure OptionsPatch where
  connect : Option OptBag := none
  publish : Option OptBag := none
  subscribe : Option OptBag := none
  call : Option OptBag := none
  register : Option OptBag := none

/-- `getOpts`: returns a shallow clone of the options object
(`Object.assign(\x7b\x7d, options)`); in a pure model the same value. -/
def getOpts (options : Options) : Options := options

/-- `setOpts`: `Object.assign(options, newOpts)` — every top-level key
present in `newOpts` replaces the current one, every other key is kept. -/
def setOpts (options : Options) (newOpts : OptionsPatch) : Options :=
  { connect := newOpts.connect.getD options.connect
    publish := newOpts.publish.getD options.publish
    subscribe := newOpts.subscribe.getD options.subscribe
    call := newOpts.call.getD options.call
    register := newOpts.register.getD options.register }

/-- `setOptsDefault`: `options = Object.assign(\x7b\x7d, DEFAULT_OPTS)`. -/
def setOptsDefault : Options := DEFAULT_OPTS

/-- `options[action]` for a dynamic action name (used by `recoverFromMap`). -/
def optsFor (options : Options) (action : String) : OptBag :=
  if action = "connect" then options.connect
  else if action = "publish" then options.publish
  else if action = "subscribe" then options.subscribe
  else if action = "call" then options.call
  else if action = "register" then options.register
  else []

/-- The external session's add-style primitives
(`session.subscribe` / `session.register`), as an oracle from the action
name, id, handler and options to the promise outcome: on success, the
opaque subscription/registration handle. -/
abbrev AddOracle := String → String → JsValue → OptBag → Except JsError Nat

/-- The external session's remove-style primitives
(`session.unsubscribe` / `session.unregister`), as an oracle from the
action name and the handle argument to the promise outcome. -/
abbrev RemoveOracle := String → Nat → Except JsError Unit

/-- The `map` parameter of the source's `add`: an object with a `.set`
method. The live registries use the real `Map.set`; the recovery engine
passes the literal `\x7b set: () => \x7b\x7d \x7d`. -/
structure MapSink (σ : Type) where
  set : σ → String → Entry → σ

/-- The live registry as a sink: `map.set(id, ...)` really stores. -/
def liveSink : MapSink RegMap := ⟨fun m id e => mapSet m id e⟩

/-- The discard sink `\x7b set: () => \x7b\x7d \x7d` passed by
`recoverFromMap`: its `set` does nothing. -/
def discardSink {σ : Type} : MapSink σ := ⟨fun s _ _ => s⟩

/-- The source's `add(action, id, callback, options, map)`:
`getSession()[action](id, callback, options).then(result =>
map.set(id, \x7b cb: callback, opResult: result \x7d))`. -/
def add {σ : Type} (sess : AddOracle) (action id : String) (callback : JsValue)
    (opts : OptBag) (sink : MapSink σ) (st : σ) : Except JsError σ :=
  match sess action id callback opts with
  | .ok result => .ok (sink.set st id ⟨callback, result⟩)
  | .error e => .error e

/-- The source's `remove(action, id, map)`:
`getSession()[action](map.get(id).opResult).then(() => map.delete(id))`.
The `none` branch models the TypeError JS raises reading `.opResult` of
`undefined`; callers guard with `has` first. -/
def remove (sess : RemoveOracle) (action id : String) (m : RegMap) :
    Except JsError RegMap :=
  match mapGet m id with
  | some entry =>
      match sess action entry.opResult with
      | .ok _ => .ok (mapDelete m id)
      | .error e => .error e
  | none => .error (.typeError "Cannot read property of undefined")

/-- `registerOne(name, func)`: validate, then
`add("register", name, deCrossbarify(func), options.register, registrationMap)`.
Note the source performs no duplicate check against `registrationMap`. -/
def registerOne (sess : AddOracle) (options : Options) (name func : JsValue)
    (registrationMap : RegMap) : Except JsError RegMap :=
  if ¬ name.isString then
    .error (.typeError (jsDisplay name ++ " must be a String."))
  else if ¬ func.isFunction then
    .error (.typeError (jsDisplay func ++ " must be a Function."))
  else
    add sess "register" name.asString (.adaptedFn func) options.register
      liveSink registrationMap

/-- An element of the list passed to `register([...])`. -/
structure RpcObj where
  name : JsValue
  func : JsValue

/-- The 22 spaces of the continuation line inside the batch-error
template literals. -/
def batchIndent : String := "                      "

/-- `registerMany(rpcList)`: sequentially `await registerOne(...)`,
re-throwing the first failure wrapped as
`Failed to register "NAME": JSON.stringify(err)`. -/
def registerMany (sess : AddOracle) (options : Options) :
    List RpcObj → RegMap → Except JsError RegMap
  | [], m => .ok m
  | rpc :: rest, m =>
      match registerOne sess options rpc.name rpc.func m with
      | .ok m' => registerMany sess options rest m'
      | .error err =>
          .error (.jsError ("Failed to register \"" ++ jsDisplay rpc.name
            ++ "\":\n" ++ batchIndent ++ jsonStringifyError err))

/-- `unregisterOne(name)`: validate, check presence, then
`remove("unregister", name, registrationMap)`. -/
def unregisterOne (sess : RemoveOracle) (name : JsValue)
    (registrationMap : RegMap) : Except JsError RegMap :=
  if ¬ name.isString then
    .error (.typeError (jsDisplay name ++ " must be a String."))
  else if ¬ mapHas registrationMap name.asString then
    .error (.jsError (jsDisplay name ++ " is not registered."))
  else
    remove sess "unregister" name.asString registrationMap

/-- `unregisterMany(rpcNamesList)`: sequentially `await unregisterOne(...)`,
re-throwing the first failure wrapped as
`Failed to unregister "RPCNAME.NAME": JSON.stringify(err)` — note the
source interpolates `rpcName.name`, a property access on the name value
itself, not the name. -/
def unregisterMany (sess : RemoveOracle) :
    List JsValue → RegMap → Except JsError RegMap
  | [], m => .ok m
  | rpcName :: rest, m =>
      match unregisterOne sess rpcName m with
      | .ok m' => unregisterMany sess rest m'
      | .error err =>
          .error (.jsError ("Failed to unregister \""
            ++ jsDisplay (jsGetPropName rpcName)
            ++ "\":\n" ++ batchIndent ++ jsonStringifyError err))

/-- `unregister(...args)` forwards every call, single name included,
to `unregisterMany(args)`. -/
def unregister (sess : RemoveOracle) (args : List JsValue)
    (registrationMap : RegMap) : Except JsError RegMap :=
  unregisterMany sess args registrationMap

/-- `subscribe(topic, callback)`: reject when the topic is already in
`subscritionMap`, else
`add("subscribe", topic, deCrossbarify(callback), options.subscribe, subscritionMap)`. -/
def subscribe (sess : AddOracle) (options : Options) (topic : String)
    (callback : JsValue) (subscritionMap : RegMap) : Except JsError RegMap :=
  if mapHas subscritionMap topic then
    .error (.jsError ("Already subscribed to " ++ topic))
  else
    add sess "subscribe" topic (.adaptedFn callback) options.subscribe
      liveSink subscritionMap

/-- `unsubscribe(topic)`: reject when the topic is not in `subscritionMap`,
else `remove("unsubscribe", topic, subscritionMap)`. -/
def unsubscribe (sess : RemoveOracle) (topic : String)
    (subscritionMap : RegMap) : Except JsError RegMap :=
  if mapHas subscritionMap topic then
    remove sess "unsubscribe" topic subscritionMap
  else
    .error (.jsError ("Not subscribed to " ++ topic))

/-- Whether a value is `undefined` (for the source's `!== undefined` tests). -/
def JsValue.isUndefined : JsValue → Bool
  | .undefined => true
  | _ => false

/-- Whether a value is the boolean `true`. -/
def JsValue.isTrue : JsValue → Bool
  | .bool b => b
  | _ => false

/-- Outcome of `publish` as seen by the caller. `resolved` is
`Promise.resolve()`; `rejected e` is `Promise.reject(error)` produced by
the `catch` of a synchronous throw; `underlying res` is the raw value
returned by `session.publish` (which autobahn leaves `undefined` — here
`none` — unless acknowledgement was requested). -/
inductive PublishResult where
  | resolved
  | rejected (e : JsError)
  | underlying (res : Option Nat)
deriving DecidableEq, Repr

/-- The external session's `publish(topic, argsArray, extraObject, optionsObject)`
primitive: `.error` models a synchronous throw, `.ok res` the raw return
value (`none` standing for `undefined`). -/
abbrev PublishOracle :=
  String → List JsValue → OptBag → OptBag → Except JsError (Option Nat)

/-- `publish(topic, ...params)`:
`res = getSession().publish(topic, params, \x7b\x7d, options.publish)` inside
`try/catch`, then
`options.publish.acknowledge !== undefined ? res : Promise.resolve()`. -/
def publish (sessPub : PublishOracle) (options : Options) (topic : String)
    (params : List JsValue) : PublishResult :=
  match sessPub topic params [] options.publish with
  | .error e => .rejected e
  | .ok res =>
      if ¬ (bagGet options.publish "acknowledge").isUndefined then .underlying res
      else .resolved

/-- Rendering of the claim's own wording for `publish`, for comparison with
the source-derived `publish`: return an already-succeeded result when the
publish options do not request acknowledgement (acknowledgement is
requested exactly when the `acknowledge` option is `true`), otherwise
return the underlying session result. -/
def publishSpec (sessPub : PublishOracle) (options : Options) (topic : String)
    (params : List JsValue) : PublishResult :=
  match sessPub topic params [] options.publish with
  | .error e => .rejected e
  | .ok res =>
      if (bagGet options.publish "acknowledge").isTrue then .underlying res
      else .resolved

/-- The `events` object: four lifecycle-callback slots, initialised to
distinct no-op function values. -/
structure Events where
  onClose : JsValue
  onOpen : JsValue
  onRecover : JsValue
  onError : JsValue

/-- The initial `events` literal with its four `() => \x7b\x7d` slots. -/
def initialEvents : Events :=
  { onClose := .fn 0, onOpen := .fn 1, onRecover := .fn 2, onError := .fn 3 }

/-- The public `onClose(fun)` setter: throws a TypeError unless `fun` is a
function, then installs it in the close slot. -/
def onClose (f : JsValue) (events : Events) : Except JsError Events :=
  if ¬ f.isFunction then
    .error (.typeError (jsDisplay f ++ " must be a Function."))
  else .ok { events with onClose := f }

/-- The public `onOpen(fun)` setter: the source installs `fun` without any
check, although its documentation announces a TypeError for
non-functions. -/
def onOpen (f : JsValue) (events : Events) : Except JsError Events :=
  .ok { events with onOpen := f }

/-- The public `onRecover(fun)` setter: installs without any check
(documentation announces a TypeError for non-functions). -/
def onRecover (f : JsValue) (events : Events) : Except JsError Events :=
  .ok { events with onRecover := f }

/-- The public `onError(fun)` setter: installs without any check
(documentation announces a TypeError for non-functions). -/
def onError (f : JsValue) (events : Events) : Except JsError Events :=
  .ok { events with onError := f }

/-- The facade's registry-and-options state, threaded through recovery. -/
structure CrossbarState where
  subscritionMap : RegMap
  registrationMap : RegMap
  options : Options

/-- Observable events of a recovery run: a session re-issue call
(`sessionCall`), an invocation of the error hook (`errorHook`), and the
invocation of the recover hook (`recoverHook`). -/
inductive RecEvent where
  | sessionCall (action : String) (key : String)
  | errorHook (e : JsError)
  | recoverHook
deriving DecidableEq, Repr

/-- `recoverFromMap(action, map)`: for each `[key, data]` of the map,
`await add(action, key, data.cb, options[action], \x7b set: () => \x7b\x7d \x7d)
.catch(err => events.onError(err))` — the discard sink leaves the state
untouched, a failure fires the error hook once and the loop continues. -/
def recoverFromMap (sess : AddOracle) (action : String) :
    RegMap → CrossbarState → CrossbarState × List RecEvent
  | [], st => (st, [])
  | (key, data) :: rest, st =>
      match add sess action key data.cb (optsFor st.options action)
          discardSink st with
      | .ok st' =>
          let next := recoverFromMap sess action rest st'
          (next.1, .sessionCall action key :: next.2)
      | .error e =>
          let next := recoverFromMap sess action rest st
          (next.1, .sessionCall action key :: .errorHook e :: next.2)

/-- `recover()`:
`recoverFromMap("subscribe", subscritionMap).then(() =>
recoverFromMap("register", registrationMap))` — the subscription phase in
full, then the registration phase. -/
def recover (sess : AddOracle) (st : CrossbarState) :
    CrossbarState × List RecEvent :=
  let p1 := recoverFromMap sess "subscribe" st.subscritionMap st
  let p2 := recoverFromMap sess "register" p1.1.registrationMap p1.1
  (p2.1, p1.2 ++ p2.2)

/-- The standing `connection.onopen` handler installed for every open after
the first: `recover().then(events.onRecover).catch(events.onError)`.
Each item's rejection inside `recoverFromMap` is already consumed by its
own `.catch`, so the promise returned by `recover` always resolves and the
recover hook always fires after both phases. -/
def reconnectCycle (sess : AddOracle) (st : CrossbarState) :
    CrossbarState × List RecEvent :=
  let r := recover sess st
  (r.1, r.2 ++ [.recoverHook])

/-- Session-call events of a recovery trace, in order. -/
def callEvents : List RecEvent → List (String × String)
  | [] => []
  | .sessionCall a k :: rest => (a, k) :: callEvents rest
  | _ :: rest => callEvents rest

/-- Error-hook events of a recovery trace, in order. -/
def errEvents : List RecEvent → List JsError
  | [] => []
  | .errorHook e :: rest => e :: errEvents rest
  | _ :: rest => errEvents rest

/-- Full facade state including the `connection` variable (the connection
object identity; `none` before the first `connect`). -/
structure FacadeFull where
  core : CrossbarState
  connection : Option Nat

/-- `connect(connectOpts)`: `connection = new autobahn.Connection(...)`,
installs the `onopen`/`onclose` handlers and calls `connection.open()`.
Its only effect on the facade's own state is replacing the `connection`
variable with the freshly constructed connection (`newConn` is the
identity the `new` expression allocates); the registries and options are
never touched. -/
def connect (newConn : Nat) (st : FacadeFull) : FacadeFull :=
  { st with connection := some newConn }

/-- `disconnect(reason, message)`: sets `connection.onclose` and calls
`connection.close(reason, message)`. The facade's own state is untouched:
the `connection` variable still holds the (now closed) connection and the
registries and options are never touched. -/
def disconnect (st : FacadeFull) : FacadeFull := st

/-- JS spread `...args` of a value into an argument list: defined for
arrays (elements in order); spreading a non-iterable throws, modelled by
`none`. -/
def jsSpread : JsValue → Option (List JsValue)
  | .arr l => some l
  | _ => none

/-- The argument adapter `deCrossbarify`, behaviourally:
`callback => args => callback.call(null, ...args)`. The positional user
callback is a Lean function from its ordered positional parameter list;
the wrapped function receives the single array argument the underlying
client delivers and spreads it. -/
def deCrossbarify (callback : List JsValue → JsValue) :
    JsValue → Option JsValue :=
  fun args => (jsSpread args).map callback

/-- `publish` hands the session its positional parameters packed into a
single array (`session.publish(topic, params, ...)`); the broker then
invokes each subscribed handler with that array as its one argument. -/
def publishPayload (params : List JsValue) : JsValue := .arr params

/-- Delivery of a payload to a subscribed handler: the underlying client
calls the handler with the args array as its single argument. -/
def deliver (handler : JsValue → Option JsValue) (payload : JsValue) :
    Option JsValue :=
  handler payload

/-! ## Helper lemmas -/

theorem callEvents_append (l1 l2 : List RecEvent) :
    callEvents (l1 ++ l2) = callEvents l1 ++ callEvents l2 := by
  induction l1 with
  | nil => rfl
  | cons e rest ih => cases e <;> simp [callEvents, ih]

theorem errEvents_append (l1 l2 : List RecEvent) :
    errEvents (l1 ++ l2) = errEvents l1 ++ errEvents l2 := by
  induction l1 with
  | nil => rfl
  | cons e rest ih => cases e <;> simp [errEvents, ih]

theorem recoverFromMap_fst (sess : AddOracle) (action : String)
    (entries : RegMap) : ∀ (st : CrossbarState),
    (recoverFromMap sess action entries st).1 = st := by
  induction entries with
  | nil => intro st; rfl
  | cons p rest ih =>
      intro st
      obtain ⟨key, data⟩ := p
      cases hs : sess action key data.cb (optsFor st.options action) with
      | ok r =>
          simp only [recoverFromMap, add, hs, discardSink]
          exact ih st
      | error e =>
          simp only [recoverFromMap, add, hs]
          exact ih st

theorem recoverFromMap_calls (sess : AddOracle) (action : String)
    (entries : RegMap) : ∀ (st : CrossbarState),
    callEvents (recoverFromMap sess action entries st).2
      = entries.map (fun p => (action, p.1)) := by
  induction entries with
  | nil => intro st; rfl
  | cons p rest ih =>
      intro st
      obtain ⟨key, data⟩ := p
      cases hs : sess action key data.cb (optsFor st.options action) with
      | ok r =>
          simp only [recoverFromMap, add, hs, discardSink, callEvents, List.map]
          exact congrArg (((action, key)) :: ·) (ih st)
      | error e =>
          simp only [recoverFromMap, add, hs, callEvents, List.map]
          exact congrArg (((action, key)) :: ·) (ih st)

theorem recover_fst (sess : AddOracle) (st : CrossbarState) :
    (recover sess st).1 = st := by
  unfold recover
  simp only [recoverFromMap_fst]

theorem reconnectCycle_snd (sess : AddOracle) (st : CrossbarState) :
    (reconnectCycle sess st).2 = (recover sess st).2 ++ [.recoverHook] := rfl

theorem recover_snd (sess : AddOracle) (st : CrossbarState) :
    (recover sess st).2
      = (recoverFromMap sess "subscribe" st.subscritionMap st).2
        ++ (recoverFromMap sess "register" st.registrationMap st).2 := by
  have h1 : (recoverFromMap sess "subscribe" st.subscritionMap st).1 = st :=
    recoverFromMap_fst sess "subscribe" st.subscritionMap st
  show (recoverFromMap sess "subscribe" st.subscritionMap st).2
      ++ (recoverFromMap sess "register"
            (recoverFromMap sess "subscribe" st.subscritionMap st).1.registrationMap
            (recoverFromMap sess "subscribe" st.subscritionMap st).1).2
      = _
  rw [h1]

theorem recover_calls (sess : AddOracle) (st : CrossbarState) :
    callEvents (recover sess st).2
      = st.subscritionMap.map (fun p => ("subscribe", p.1))
        ++ st.registrationMap.map (fun p => ("register", p.1)) := by
  rw [recover_snd, callEvents_append, recoverFromMap_calls, recoverFromMap_calls]

theorem errEvents_recoverFromMap_allok (sess : AddOracle) (action : String)
    (entries : RegMap) : ∀ (st : CrossbarState),
    (∀ k cb opts, k ∈ entries.map Prod.fst →
      ∃ r, sess action k cb opts = Except.ok r) →
    errEvents (recoverFromMap sess action entries st).2 = [] := by
  induction entries with
  | nil => intro st _; rfl
  | cons p rest ih =>
      intro st hok
      obtain ⟨key, data⟩ := p
      obtain ⟨r, hr⟩ := hok key data.cb (optsFor st.options action)
        (by simp)
      simp only [recoverFromMap, add, hr, discardSink, errEvents]
      exact ih st (fun k cb opts hk => hok k cb opts
        (by simp only [List.map_cons, List.mem_cons]; exact Or.inr hk))

theorem errEvents_recoverFromMap_onefail (sess : AddOracle) (action : String)
    (k₀ : String) (e₀ : JsError) (entries : RegMap) :
    ∀ (st : CrossbarState),
    k₀ ∈ entries.map Prod.fst →
    (entries.map Prod.fst).Nodup →
    (∀ cb opts, sess action k₀ cb opts = Except.error e₀) →
    (∀ k cb opts, k ≠ k₀ → ∃ r, sess action k cb opts = Except.ok r) →
    errEvents (recoverFromMap sess action entries st).2 = [e₀] := by
  induction entries with
  | nil => intro st hmem; simp at hmem
  | cons p rest ih =>
      intro st hmem hnodup hfail hok
      obtain ⟨key, data⟩ := p
      simp only [List.map_cons, List.nodup_cons] at hnodup
      by_cases hk : key = k₀
      · subst hk
        have hr := hfail data.cb (optsFor st.options action)
        simp only [recoverFromMap, add, hr, errEvents]
        have hrest : errEvents (recoverFromMap sess action rest st).2 = [] :=
          errEvents_recoverFromMap_allok sess action rest st
            (fun k cb opts hkmem =>
              hok k cb opts (fun hEq => hnodup.1 (hEq ▸ hkmem)))
        rw [hrest]
      · obtain ⟨r, hr⟩ := hok key data.cb (optsFor st.options action) hk
        simp only [recoverFromMap, add, hr, discardSink, errEvents]
        refine ih st ?_ hnodup.2 hfail hok
        simp only [List.map_cons, List.mem_cons] at hmem
        rcases hmem with h | h
        · exact absurd h.symm hk
        · exact h

/-! ## Claims -/

/-- C2: the Recovery Engine replays entries in two strictly sequential
phases — the session re-issue calls of a recovery run are exactly every
tracked subscription, in registry order, followed by every tracked
registration, in registry order (the sequential trace encodes that each
item is awaited before the next starts). -/
theorem recover_two_phases (sess : AddOracle) (st : CrossbarState) :
    callEvents (recover sess st).2
      = st.subscritionMap.map (fun p => ("subscribe", p.1))
        ++ st.registrationMap.map (fun p => ("register", p.1)) := by
  unfold recover
  simp only [callEvents_append, recoverFromMap_calls, recoverFromMap_fst]

/-- C3: during recovery replay the live registries are not modified — the
replay writes into the discard sink, so for every key both the
subscription entry and the registration entry after `recover` are the
ones present before it. -/
theorem recover_preserves_registries (sess : AddOracle) (st : CrossbarState)
    (key : String) :
    mapGet (recover sess st).1.subscritionMap key = mapGet st.subscritionMap key
    ∧ mapGet (recover sess st).1.registrationMap key
        = mapGet st.registrationMap key := by
  rw [recover_fst]
  exact ⟨rfl, rfl⟩

/-- C1: during recovery replay, if re-issuing a single tracked
subscription or registration fails, the error hook fires exactly once,
with that item's failure; every item of both registries is still
re-issued; and the replay run still ends with the recover hook (the
overall recovery is reported as success, never as a failure). -/
theorem recovery_per_item_isolation (sess : AddOracle) (st : CrossbarState)
    (a₀ k₀ : String) (e₀ : JsError)
    (hwhere : (a₀ = "subscribe" ∧ k₀ ∈ st.subscritionMap.map Prod.fst)
      ∨ (a₀ = "register" ∧ k₀ ∈ st.registrationMap.map Prod.fst))
    (hnodupS : (st.subscritionMap.map Prod.fst).Nodup)
    (hnodupR : (st.registrationMap.map Prod.fst).Nodup)
    (hfail : ∀ cb opts, sess a₀ k₀ cb opts = Except.error e₀)
    (hok : ∀ a k cb opts, ¬(a = a₀ ∧ k = k₀) →
      ∃ r, sess a k cb opts = Except.ok r) :
    errEvents (reconnectCycle sess st).2 = [e₀]
    ∧ callEvents (reconnectCycle sess st).2
        = st.subscritionMap.map (fun p => ("subscribe", p.1))
          ++ st.registrationMap.map (fun p => ("register", p.1))
    ∧ (reconnectCycle sess st).2.getLast? = some .recoverHook := by
  refine ⟨?_, ?_, ?_⟩
  · rw [reconnectCycle_snd, errEvents_append, recover_snd, errEvents_append]
    rcases hwhere with ⟨ha, hmem⟩ | ⟨ha, hmem⟩
    · subst ha
      rw [errEvents_recoverFromMap_onefail sess "subscribe" k₀ e₀
            st.subscritionMap st hmem hnodupS hfail
            (fun k cb opts hk => hok "subscribe" k cb opts (fun hc => hk hc.2)),
          errEvents_recoverFromMap_allok sess "register" st.registrationMap st
            (fun k cb opts _ => hok "register" k cb opts
              (fun hc => absurd hc.1 (by decide)))]
      rfl
    · subst ha
      rw [errEvents_recoverFromMap_allok sess "subscribe" st.subscritionMap st
            (fun k cb opts _ => hok "subscribe" k cb opts
              (fun hc => absurd hc.1 (by decide))),
          errEvents_recoverFromMap_onefail sess "register" k₀ e₀
            st.registrationMap st hmem hnodupR hfail
            (fun k cb opts hk => hok "register" k cb opts (fun hc => hk hc.2))]
      rfl
  · rw [reconnectCycle_snd, callEvents_append, recover_calls]
    simp [callEvents]
  · rw [reconnectCycle_snd]
    simp [List.getLast?_concat]

/-- Oracle for the C1 witness: fails exactly on the subscription "t1". -/
def c1Sess : AddOracle := fun a k _ _ =>
  if a = "subscribe" ∧ k = "t1" then .error (.jsError "boom") else .ok 7

/-- State for the C1 witness: two subscriptions and one registration. -/
def c1State : CrossbarState :=
  { subscritionMap := [("t1", ⟨.adaptedFn (.fn 10), 1⟩),
                       ("t2", ⟨.adaptedFn (.fn 11), 2⟩)]
    registrationMap := [("r1", ⟨.adaptedFn (.fn 12), 3⟩)]
    options := DEFAULT_OPTS }

theorem recovery_per_item_isolation_witness :
    errEvents (reconnectCycle c1Sess c1State).2 = [.jsError "boom"]
    ∧ callEvents (reconnectCycle c1Sess c1State).2
        = c1State.subscritionMap.map (fun p => ("subscribe", p.1))
          ++ c1State.registrationMap.map (fun p => ("register", p.1))
    ∧ (reconnectCycle c1Sess c1State).2.getLast? = some .recoverHook :=
  recovery_per_item_isolation c1Sess c1State "subscribe" "t1" (.jsError "boom")
    (Or.inl ⟨rfl, by decide⟩) (by decide) (by decide)
    (fun cb opts => by unfold c1Sess; exact if_pos ⟨rfl, rfl⟩)
    (fun a k cb opts hne => ⟨7, by unfold c1Sess; exact if_neg hne⟩)

/-- Oracle for the C4 theorems: a session accepting everything. -/
def c4Sess : AddOracle := fun _ _ _ _ => .ok 9

/-- C4 counterexample: with "proc" already present in the registration
store, a second register of "proc" is not rejected — `registerOne`
performs no duplicate check, succeeds against an accepting session and
overwrites the stored entry. -/
theorem registerOne_duplicate_accepted :
    mapHas [("proc", ⟨.adaptedFn (.fn 4), 5⟩)] "proc" = true
    ∧ registerOne c4Sess DEFAULT_OPTS (.str "proc") (.fn 6)
        [("proc", ⟨.adaptedFn (.fn 4), 5⟩)]
      = .ok [("proc", ⟨.adaptedFn (.fn 6), 9⟩)] := ⟨rfl, rfl⟩

/-- C4 amended: the at-most-one-active-entry invariant is enforced for
subscriptions only — a second subscribe to a present topic is rejected
with the already-subscribed error, while `registerOne`, for any valid
name and function, forwards to the session's register primitive
regardless of the name's presence in the registration store. -/
theorem duplicate_checks_amended :
    (∀ (sess : AddOracle) (options : Options) (topic : String) (cb : JsValue)
      (subMap : RegMap), mapHas subMap topic = true →
      subscribe sess options topic cb subMap
        = .error (.jsError ("Already subscribed to " ++ topic)))
    ∧ (∀ (sess : AddOracle) (options : Options) (name func : JsValue)
      (regMap : RegMap), name.isString = true → func.isFunction = true →
      registerOne sess options name func regMap
        = add sess "register" name.asString (.adaptedFn func) options.register
            liveSink regMap) := by
  constructor
  · intro sess options topic cb subMap h
    simp [subscribe, h]
  · intro sess options name func regMap h1 h2
    simp [registerOne, h1, h2]

theorem duplicate_checks_amended_witness :
    subscribe c4Sess DEFAULT_OPTS "t" (.fn 0)
        [("t", ⟨.adaptedFn (.fn 1), 2⟩)]
      = .error (.jsError ("Already subscribed to " ++ "t"))
    ∧ registerOne c4Sess DEFAULT_OPTS (.str "p") (.fn 0) []
      = add c4Sess "register" "p" (.adaptedFn (.fn 0)) DEFAULT_OPTS.register
          liveSink [] :=
  ⟨duplicate_checks_amended.1 c4Sess DEFAULT_OPTS "t" (.fn 0)
      [("t", ⟨.adaptedFn (.fn 1), 2⟩)] rfl,
   duplicate_checks_amended.2 c4Sess DEFAULT_OPTS (.str "p") (.fn 0) [] rfl rfl⟩

/-- Oracle for C5: a session whose unregister accepts. -/
def c5RemSess : RemoveOracle := fun _ _ => .ok ()

/-- Oracle for C5: a session whose register rejects. -/
def c5AddSessFail : AddOracle := fun _ _ _ _ =>
  .error (.jsError "wamp.error.runtime_error")

/-- C5, evaluated at the failing input: batch unregister of the single
unknown name "hello" rejects with a message naming "undefined" — the
source interpolates `rpcName.name`, a property access on the string
itself — whereas batch register's failure message does name the failing
item. -/
theorem batch_error_message_eval :
    unregister c5RemSess [.str "hello"] []
      = .error (.jsError ("Failed to unregister \"undefined\":\n"
          ++ batchIndent ++ "\x7b\x7d"))
    ∧ registerMany c5AddSessFail DEFAULT_OPTS [⟨.str "hello", .fn 0⟩] []
      = .error (.jsError ("Failed to register \"hello\":\n"
          ++ batchIndent ++ "\x7b\x7d")) := ⟨rfl, rfl⟩

/-- C6, evaluated at the failing input `5`: only the close-slot setter
validates callability; the open, recover and error setters install the
non-callable value without any error, contradicting their documented
TypeError. -/
theorem hook_setters_unchecked :
    onOpen (.num 5) initialEvents = .ok { initialEvents with onOpen := .num 5 }
    ∧ onRecover (.num 5) initialEvents
        = .ok { initialEvents with onRecover := .num 5 }
    ∧ onError (.num 5) initialEvents
        = .ok { initialEvents with onError := .num 5 }
    ∧ onClose (.num 5) initialEvents
        = .error (.typeError "5 must be a Function.") := ⟨rfl, rfl, rfl, rfl⟩

/-- Oracle for C7: `session.publish` without acknowledgement returns
`undefined` (`none`). -/
def c7Sess : PublishOracle := fun _ _ _ _ => .ok none

/-- Options for C7: `acknowledge` present but `false`. -/
def c7Opts : Options := { DEFAULT_OPTS with
  publish := [("acknowledge", .bool false)] }

/-- C7 counterexample: with `acknowledge: false` the publish options do
not request acknowledgement, yet `publish` returns the raw underlying
result (`undefined`), not an already-succeeded deferred — while
`publishSpec`, the claim's own wording, yields the already-succeeded
result there. -/
theorem publish_ack_false_counterexample :
    publish c7Sess c7Opts "topic" [] = .underlying none
    ∧ publishSpec c7Sess c7Opts "topic" [] = .resolved := ⟨rfl, rfl⟩

/-- C7 amended: `publish` returns the already-succeeded result exactly
when the `acknowledge` key of the publish options is undefined; whenever
`acknowledge` is defined — whatever its value — it returns the raw
underlying session result. -/
theorem publish_ack_defined (sessPub : PublishOracle) (options : Options)
    (topic : String) (params : List JsValue) (res : Option Nat)
    (hok : sessPub topic params [] options.publish = .ok res) :
    ((bagGet options.publish "acknowledge").isUndefined = true →
      publish sessPub options topic params = .resolved)
    ∧ ((bagGet options.publish "acknowledge").isUndefined = false →
      publish sessPub options topic params = .underlying res) := by
  constructor
  · intro h
    simp [publish, hok, h]
  · intro h
    simp [publish, hok, h]

theorem publish_ack_defined_witness :
    (bagGet c7Opts.publish "acknowledge").isUndefined = false
    ∧ publish c7Sess c7Opts "t" [] = .underlying none :=
  ⟨rfl, (publish_ack_defined c7Sess c7Opts "t" [] none rfl).2 rfl⟩

/-- C8: resetting options to default and then reading yields exactly the
default structure; setting options with a partial object shallow-merges —
every section present in the patch replaces the current one, every
section not mentioned is unchanged. -/
theorem options_reset_and_merge :
    getOpts setOptsDefault
      = { connect := [("url", .str "ws://localhost:8080/ws"),
                      ("realm", .str "realm1")],
          publish := [], subscribe := [], call := [], register := [] }
    ∧ ∀ (cur : Options) (p : OptionsPatch),
        ((∀ b, p.connect = some b → (getOpts (setOpts cur p)).connect = b)
          ∧ (p.connect = none → (getOpts (setOpts cur p)).connect = cur.connect))
        ∧ ((∀ b, p.publish = some b → (getOpts (setOpts cur p)).publish = b)
          ∧ (p.publish = none → (getOpts (setOpts cur p)).publish = cur.publish))
        ∧ ((∀ b, p.subscribe = some b → (getOpts (setOpts cur p)).subscribe = b)
          ∧ (p.subscribe = none →
              (getOpts (setOpts cur p)).subscribe = cur.subscribe))
        ∧ ((∀ b, p.call = some b → (getOpts (setOpts cur p)).call = b)
          ∧ (p.call = none → (getOpts (setOpts cur p)).call = cur.call))
        ∧ ((∀ b, p.register = some b → (getOpts (setOpts cur p)).register = b)
          ∧ (p.register = none →
              (getOpts (setOpts cur p)).register = cur.register)) := by
  refine ⟨rfl, ?_⟩
  intro cur p
  refine ⟨⟨?_, ?_⟩, ⟨?_, ?_⟩, ⟨?_, ?_⟩, ⟨?_, ?_⟩, ⟨?_, ?_⟩⟩ <;>
    first
      | (intro b hb; simp [getOpts, setOpts, hb])
      | (intro hb; simp [getOpts, setOpts, hb])

/-- Patch for the C8 witness: only the publish section is mentioned. -/
def c8Patch : OptionsPatch := { publish := some [("x", .num 1)] }

theorem options_reset_and_merge_witness :
    (getOpts (setOpts DEFAULT_OPTS c8Patch)).publish = [("x", .num 1)]
    ∧ (getOpts (setOpts DEFAULT_OPTS c8Patch)).connect = DEFAULT_OPTS.connect :=
  ⟨(options_reset_and_merge.2 DEFAULT_OPTS c8Patch).2.1.1 [("x", .num 1)] rfl,
   (options_reset_and_merge.2 DEFAULT_OPTS c8Patch).1.2 rfl⟩

/-- C9: the Argument Adapter's wrapped function, applied to the packed
positional argument sequence a publish sends, invokes the original
callback with exactly those values as its ordered positional parameter
list — order and count are preserved through the round trip. -/
theorem adapter_preserves_args (callback : List JsValue → JsValue)
    (params : List JsValue) :
    deliver (deCrossbarify callback) (publishPayload params)
      = some (callback params) := rfl

theorem mapHas_of_mapGet (m : RegMap) (key : String) (e : Entry)
    (h : mapGet m key = some e) : mapHas m key = true := by
  induction m with
  | nil => simp [mapGet] at h
  | cons p rest ih =>
      obtain ⟨k, v⟩ := p
      simp only [mapGet] at h
      by_cases hk : k = key
      · simp [mapHas, hk]
      · rw [if_neg hk] at h
        have hr := ih h
        simp only [mapHas, List.any_cons] at hr ⊢
        simp [hr]

/-- C10: `connect` and `disconnect` leave both registries untouched, so
after an explicit disconnect followed by a new connect every previously
tracked entry is still present: a subscribe to a topic subscribed before
the disconnect is rejected as already subscribed, and an unsubscribe
consults the new session at the stale handle (`entry.opResult`) stored
under the dead session. -/
theorem connect_disconnect_frame (st : FacadeFull) (newConn : Nat)
    (sessA : AddOracle) (sessR : RemoveOracle) (topic : String)
    (cb : JsValue) (entry : Entry) :
    (connect newConn (disconnect st)).core.subscritionMap
        = st.core.subscritionMap
    ∧ (connect newConn (disconnect st)).core.registrationMap
        = st.core.registrationMap
    ∧ (mapHas st.core.subscritionMap topic = true →
        subscribe sessA (connect newConn (disconnect st)).core.options topic cb
          (connect newConn (disconnect st)).core.subscritionMap
        = .error (.jsError ("Already subscribed to " ++ topic)))
    ∧ (mapGet st.core.subscritionMap topic = some entry →
        unsubscribe sessR topic
          (connect newConn (disconnect st)).core.subscritionMap
        = match sessR "unsubscribe" entry.opResult with
          | .ok _ => .ok (mapDelete st.core.subscritionMap topic)
          | .error e => .error e) := by
  refine ⟨rfl, rfl, ?_, ?_⟩
  · intro h
    show subscribe sessA st.core.options topic cb st.core.subscritionMap = _
    simp [subscribe, h]
  · intro h
    show unsubscribe sessR topic st.core.subscritionMap = _
    have hhas := mapHas_of_mapGet st.core.subscritionMap topic entry h
    simp [unsubscribe, hhas, remove, h]

/-- State for the C10 witness: one subscription tracked under the first
connection. -/
def c10Full : FacadeFull :=
  { core := { subscritionMap := [("news", ⟨.adaptedFn (.fn 20), 42⟩)]
              registrationMap := []
              options := DEFAULT_OPTS }
    connection := some 1 }

/-- Oracle for the C10 witness: a new session accepting subscribes. -/
def c10SessA : AddOracle := fun _ _ _ _ => .ok 50

/-- Oracle for the C10 witness: a new session accepting unsubscribes. -/
def c10SessR : RemoveOracle := fun _ _ => .ok ()

theorem connect_disconnect_frame_witness :
    (subscribe c10SessA (connect 2 (disconnect c10Full)).core.options "news"
        (.fn 21) (connect 2 (disconnect c10Full)).core.subscritionMap
      = .error (.jsError ("Already subscribed to " ++ "news")))
    ∧ (unsubscribe c10SessR "news"
        (connect 2 (disconnect c10Full)).core.subscritionMap
      = .ok (mapDelete c10Full.core.subscritionMap "news")) :=
  ⟨(connect_disconnect_frame c10Full 2 c10SessA c10SessR "news" (.fn 21)
      ⟨.adaptedFn (.fn 20), 42⟩).2.2.1 rfl,
   (connect_disconnect_frame c10Full 2 c10SessA c10SessR "news" (.fn 21)
      ⟨.adaptedFn (.fn 20), 42⟩).2.2.2 rfl⟩

end Crossbarjs
